import Mathlib

/-!
Verification development for the dealroom firestore connector.

The Python sources are embedded shallowly:
* Python values flowing through payloads and documents become `PyVal`
  (ints, strings, None, lists of url strings, timestamps).
* Firestore documents become association lists with dict semantics (`Doc`).
* The history collection becomes a `Store`: a list of (document id, document)
  pairs plus a fresh-id counter; queries are list filters.
* The external url normalizer `dealroom_urlextract.extract` is an external
  collaborator (a different repository); following its documented contract it
  is a parameter `extract : PyVal → Option String` where `none` models
  `InvalidURLFormat` being raised.
* Fallible store calls are driven by explicit attempt oracles; raised
  exceptions become `Except`/`Option` results.
-/

/-- A Python value as it appears in payloads and documents of this connector:
integers, strings, `None`, lists of url strings (`current_related_urls`), and
timestamps (`last_edit`). -/
inductive PyVal where
  | pInt : Int → PyVal
  | pStr : String → PyVal
  | pNone : PyVal
  | pList : List String → PyVal
  | pTime : Nat → PyVal
deriving DecidableEq, Repr

/-- Python truthiness for the values above: 0, "", None and [] are falsy. -/
def pyTruthy : PyVal → Bool
  | .pInt n => n != 0
  | .pStr s => s != ""
  | .pNone => false
  | .pList l => !l.isEmpty
  | .pTime _ => true

/-- Python `a or b` on values: `a` if truthy else `b`. -/
def pyOr (a b : PyVal) : PyVal := if pyTruthy a then a else b

/-- A document / dict: association list of field name to value. -/
abbrev Doc := List (String × PyVal)

/-- First-match association-list lookup, shared by documents and stores. -/
def alookup {κ β : Type} [BEq κ] : List (κ × β) → κ → Option β
  | [], _ => none
  | p :: rest, k => if p.1 == k then some p.2 else alookup rest k

/-- `d.get(k)` without a default: `some v` when the key is present (first
binding wins, and `dinsert` keeps keys unique). -/
def docGet? (d : Doc) (k : String) : Option PyVal := alookup d k

/-- `d.get(k)`: Python returns `None` for a missing key. -/
def docGet (d : Doc) (k : String) : PyVal := (docGet? d k).getD .pNone

/-- `k in d`. -/
def dmem (d : Doc) (k : String) : Bool := (docGet? d k).isSome

/-- `d[k] = v`: replace the existing binding, or append a new one. -/
def dinsert (d : Doc) (k : String) (v : PyVal) : Doc :=
  if dmem d k then d.map (fun kv => if kv.1 == k then (k, v) else kv)
  else d ++ [(k, v)]

/-- `{**base, **over}`: later (`over`) entries win. -/
def dictMerge (base over : Doc) : Doc :=
  over.foldl (fun acc kv => dinsert acc kv.1 kv.2) base

/-- `value.isnumeric()` restricted to ASCII digits, as used on id strings. -/
def pyIsNumeric (s : String) : Bool := !s.isEmpty && s.toList.all Char.isDigit

/-- `int(s)` for an optionally signed digit string; `none` models the
`ValueError` that `int` raises on anything else. (Surrounding whitespace and
underscore separators accepted by CPython are not modelled; no call site in
this repository relies on them.) -/
def pyIntOfStr (s : String) : Option Int :=
  match s.toList with
  | [] => none
  | c :: cs =>
    if c == '-' then
      if !cs.isEmpty && cs.all Char.isDigit then
        some (-(Int.ofNat (String.mk cs).toNat!))
      else none
    else if c == '+' then
      if !cs.isEmpty && cs.all Char.isDigit then
        some (Int.ofNat (String.mk cs).toNat!)
      else none
    else if (c :: cs).all Char.isDigit then
      some (Int.ofNat (String.mk (c :: cs)).toNat!)
    else none

/-- `int(v)` on a payload value. -/
def pyInt? : PyVal → Option Int
  | .pInt n => some n
  | .pStr s => pyIntOfStr s
  | _ => none

/-- helpers.is_valid_id: a string is valid when numeric with value > 0; an int
when > 0 (`value and int(value) > 0`); every other type is invalid. -/
def is_valid_id : PyVal → Bool
  | .pStr s => !s.isEmpty && pyIsNumeric s && (String.toNat! s : Int) > 0
  | .pInt n => n != 0 && n > 0
  | _ => false

/-- `listStartsWith pat l`: `l` begins with `pat`. -/
def listStartsWith : List Char → List Char → Bool
  | [], _ => true
  | _ :: _, [] => false
  | p :: ps, c :: cs => p == c && listStartsWith ps cs

/-- Fuel-driven worker for `replaceAll`; the fuel bounds the input length so
the recursion is structural (and therefore computes in the kernel). -/
def replaceAllAux (pat repl : List Char) : Nat → List Char → List Char
  | _, [] => []
  | 0, l => l
  | fuel + 1, c :: cs =>
    if pat ≠ [] ∧ listStartsWith pat (c :: cs) then
      repl ++ replaceAllAux pat repl fuel (cs.drop (pat.length - 1))
    else
      c :: replaceAllAux pat repl fuel cs

/-- `str.replace(pat, repl)`: replace every non-overlapping occurrence,
left to right. An empty pattern leaves the string unchanged (no call site
uses one). -/
def replaceAll (pat repl l : List Char) : List Char :=
  replaceAllAux pat repl l.length l

/-- One of the characters stripped by `.strip(...)` in the UUID constructor:
a curly brace (written by code point to keep braces out of literals). -/
def isBraceChar (c : Char) : Bool := c == Char.ofNat 123 || c == Char.ofNat 125

/-- `str.strip(chars)`: drop matching characters from both ends. -/
def pyStrip (p : Char → Bool) (l : List Char) : List Char :=
  ((l.dropWhile p).reverse.dropWhile p).reverse

/-- A hexadecimal digit. -/
def isHexChar (c : Char) : Bool :=
  c.isDigit || (97 ≤ c.toNat && c.toNat ≤ 102) || (65 ≤ c.toNat && c.toNat ≤ 70)

/-- The normalization the CPython `uuid.UUID(hex=...)` constructor performs on
its `hex` argument: remove every `urn:` and `uuid:`, strip surrounding curly
braces, remove hyphens. -/
def uuidNormalizeHex (s : String) : List Char :=
  replaceAll ['-'] []
    (pyStrip isBraceChar
      (replaceAll "uuid:".toList [] (replaceAll "urn:".toList [] s.toList)))

/-- helpers.is_valid_uuid: `UUID(hex=value, version=4)` succeeds exactly when
`value` is a string whose normalized hex part is 32 hexadecimal digits — the
forced `version=4` overwrites the version/variant bits, so they are never
checked. A non-string raises `TypeError`/`AttributeError` inside the
constructor, which the helper catches and turns into `False`. (CPython's
`int(hex, 16)` also tolerates underscore digit separators; that liberality is
not modelled and no theorem below relies on it.) -/
def is_valid_uuid : PyVal → Bool
  | .pStr s =>
    let t := uuidNormalizeHex s
    t.length == 32 && t.all isHexChar
  | _ => false

/-- status_codes.StatusCode. -/
inductive StatusCode where
  | ERROR
  | SUCCESS
  | CREATED
  | UPDATED
deriving DecidableEq, Repr

/-- identifier.DealroomEntity.DELETED. -/
def DELETED : Int := -2

/-- identifier.DealroomEntity.NOT_IN_DB. -/
def NOT_IN_DB : Int := -1

/-- identifier.DealroomIdentifier: an int value means a dealroom id, a string
value means a dealroom uuid (this is exactly the `isinstance` dispatch of the
constructor). -/
inductive DealroomIdentifier where
  | idNum : Int → DealroomIdentifier
  | idUuid : String → DealroomIdentifier
deriving DecidableEq, Repr

/-- DealroomIdentifier.field_name. -/
def field_name : DealroomIdentifier → String
  | .idNum _ => "dealroom_id"
  | .idUuid _ => "dealroom_uuid"

/-- DealroomIdentifier.field_name_old. -/
def field_name_old (d : DealroomIdentifier) : String := field_name d ++ "_old"

/-- DealroomIdentifier.value as a payload value. -/
def idValue : DealroomIdentifier → PyVal
  | .idNum n => .pInt n
  | .idUuid s => .pStr s

/-- identifier.determine_identifier: falsy input is no identifier (`ok none`),
a valid id or uuid builds a `DealroomIdentifier`, anything else raises
`InvalidIdentifier` (`error`). -/
def determine_identifier (v : PyVal) : Except Unit (Option DealroomIdentifier) :=
  if !pyTruthy v then .ok none
  else if is_valid_id v then
    .ok (some (.idNum ((pyInt? v).getD 0)))
  else if is_valid_uuid v then
    .ok (some (.idUuid (match v with | .pStr s => s | _ => "")))
  else .error ()

/-- exceptions.FirestoreConnectorError raised after the retry: it carries the
operation name and (as text) the underlying exception. -/
structure FirestoreConnectorError where
  operation : String
  underlying : String
deriving DecidableEq, Repr

/-- Observable actions of one store-access primitive: an invocation of the
wrapped underlying store call, or a blocking sleep of the given seconds. -/
inductive PrimEvent where
  | callStore
  | sleepFor : Nat → PrimEvent
deriving DecidableEq, Repr

/-- EXCEPTION_SLEEP_TIME: seconds slept before the single retry. -/
def EXCEPTION_SLEEP_TIME : Nat := 5

/-- The shared body of `get`, `set`, `update` and `stream`: try the underlying
call (`attempt 0`); on an exception sleep `EXCEPTION_SLEEP_TIME` and retry once
(`attempt 1`); a second exception raises `FirestoreConnectorError(opName, exc)`.
The attempt oracle yields `.error msg` when the underlying call raises. The
second component is the trace of underlying calls and sleeps, in order. -/
def retryOncePrimitive (opName : String) (attempt : Nat → Except String α) :
    Except FirestoreConnectorError α × List PrimEvent :=
  match attempt 0 with
  | .ok a => (.ok a, [.callStore])
  | .error _ =>
    match attempt 1 with
    | .ok a =>
      (.ok a, [.callStore, .sleepFor EXCEPTION_SLEEP_TIME, .callStore])
    | .error e =>
      (.error ⟨opName, e⟩,
       [.callStore, .sleepFor EXCEPTION_SLEEP_TIME, .callStore])

/-- Result after the `exc_handler` boundary decorator: either the wrapped
function's value or a bare status code. -/
inductive Handled (α : Type) where
  | value : α → Handled α
  | code : StatusCode → Handled α
deriving DecidableEq, Repr

/-- exceptions.exc_handler: catches `FirestoreConnectorError` and returns the
ERROR status code; a normal result passes through. -/
def exc_handler (r : Except FirestoreConnectorError α) : Handled α :=
  match r with
  | .ok a => .value a
  | .error _ => .code .ERROR

/-- The `get` primitive seen from a caller: retry-once body under the
boundary decorator. -/
def get_primitive (attempt : Nat → Except String α) : Handled α :=
  exc_handler (retryOncePrimitive "get" attempt).1

/-- The `set` primitive seen from a caller (one attempt = the primary merge
write plus the conditional last_edit update, see `set_attempt`). -/
def set_primitive (attempt : Nat → Except String α) : Handled α :=
  exc_handler (retryOncePrimitive "set" attempt).1

/-- The `update` primitive seen from a caller. -/
def update_primitive (attempt : Nat → Except String α) : Handled α :=
  exc_handler (retryOncePrimitive "update" attempt).1

/-- The `stream` primitive seen from a caller. -/
def stream_primitive (attempt : Nat → Except String α) : Handled α :=
  exc_handler (retryOncePrimitive "stream" attempt).1

/-- A generic document store keyed by full document path, for the single
document `set`/`update` primitives (any collection, not just history). -/
abbrev GStore := List (String × Doc)

/-- Fetch a document by path. -/
def gstoreGet (st : GStore) (path : String) : Option Doc := alookup st path

/-- `doc_ref.set(fields, merge=True)`: merge into the existing document or
create it. -/
def gstoreSetMerge (st : GStore) (path : String) (payload : Doc) : GStore :=
  match gstoreGet st path with
  | some _ => st.map (fun q => if q.1 == path then (path, dictMerge q.2 payload) else q)
  | none => st ++ [(path, payload)]

/-- `str.split(sep)` for a single-character separator (`"".split("/") = [""]`,
adjacent separators produce empty segments). -/
def splitOnChar (sep : Char) : List Char → List (List Char)
  | [] => [[]]
  | c :: cs =>
    match splitOnChar sep cs with
    | [] => [[c]]
    | h :: t => if c == sep then [] :: h :: t else (c :: h) :: t

/-- `doc_ref.path.split("/")` as strings. -/
def pathSegments (path : String) : List String :=
  (splitOnChar '/' path.toList).map (fun l => String.mk l)

/-- The path test inside `_update_last_edit` / `_check_if_update_last_edit`:
split the path on "/", require exactly 2 segments with the first = "history". -/
def isHistoryPath (path : String) : Bool :=
  let p := pathSegments path
  p.length == 2 && p.headD "" == "history"

/-- __init__._update_last_edit: when the reference is in the history
collection, merge `last_edit := now` into the document (a field update on an
existing document); otherwise do nothing. -/
def update_last_edit (now : Nat) (st : GStore) (path : String) : GStore :=
  if isHistoryPath path then
    gstoreSetMerge st path [("last_edit", .pTime now)]
  else st

/-- One attempt of the `set` primitive body: `doc_ref.set(payload, merge=True)`
followed by `_update_last_edit`. `primaryOk = false` models the primary write
raising (no state change escapes a failed attempt); on success the last_edit
side effect runs. Feeding these attempts to `retryOncePrimitive "set"` gives
the full primitive. -/
def set_attempt (now : Nat) (st : GStore) (path : String) (payload : Doc)
    (primaryOk : Bool) : Except String GStore :=
  if primaryOk then
    .ok (update_last_edit now (gstoreSetMerge st path payload) path)
  else .error "set raised"

/-- One attempt of the `update` primitive body: `doc_ref.update(payload)`
followed by `_update_last_edit` — the same shape as `set_attempt`. Firestore's
`update` writes the given fields into an existing document (a field merge at
this level of modelling); updating a missing document raises, which, like any
primary-write failure, is covered by `primaryOk = false` (no state change
escapes a failed attempt). Feeding these attempts to
`retryOncePrimitive "update"` gives the full primitive. -/
def update_attempt (now : Nat) (st : GStore) (path : String) (payload : Doc)
    (primaryOk : Bool) : Except String GStore :=
  if primaryOk then
    .ok (update_last_edit now (gstoreSetMerge st path payload) path)
  else .error "update raised"

/-- batch.Batcher.MAX_WRITES_PER_BATCH. -/
def MAX_WRITES_PER_BATCH : Nat := 500

/-- batch.Batcher: the write counter plus the writes actually queued in the
underlying firestore batch (opaque operation tokens). -/
structure Batcher where
  total_writes : Nat
  queued : List Nat
deriving DecidableEq, Repr

/-- A fresh Batcher. -/
def Batcher.init : Batcher := ⟨0, []⟩

/-- batch.Batcher._count_write's wrapper around any queued write operation
(`set`/`create`/`update`/`delete`): increment the counter first; if it now
exceeds the ceiling, raise InvalidArgument (result `false`) without queuing —
note the incremented counter is kept; otherwise queue the operation. -/
def count_write_wrapper (b : Batcher) (op : Nat) : Bool × Batcher :=
  let t := b.total_writes + 1
  if t > MAX_WRITES_PER_BATCH then
    (false, { b with total_writes := t })
  else
    (true, { total_writes := t, queued := b.queued ++ [op] })

/-- Queue a sequence of write operations one call after another; the boolean
is true when every call succeeded. -/
def queueSeq : Batcher → List Nat → Bool × Batcher
  | b, [] => (true, b)
  | b, op :: ops =>
    let r := count_write_wrapper b op
    let rest := queueSeq r.2 ops
    (r.1 && rest.1, rest.2)

/-- batch.Batcher.commit: try the underlying commit; on failure retry exactly
once; a successful commit flushes the queue and resets the counter to zero;
a second failure returns ERROR leaving the batch untouched. The oracle gives
the outcome of each underlying commit call. -/
def Batcher.commit (b : Batcher) (attempt : Nat → Bool) : StatusCode × Batcher :=
  if attempt 0 then (.SUCCESS, ⟨0, []⟩)
  else if attempt 1 then (.SUCCESS, ⟨0, []⟩)
  else (.ERROR, b)

/-- The history collection: documents keyed by an opaque document id, plus the
next fresh id `history_col.document()` would allocate. The pure model's store
reads and writes always succeed (the retry layer is verified separately). -/
structure Store where
  history : List (Nat × Doc)
  nextId : Nat
deriving DecidableEq, Repr

/-- Lookup in the id-keyed history list. -/
def lookupId (l : List (Nat × Doc)) (i : Nat) : Option Doc := alookup l i

/-- `doc_ref.get().to_dict()`: `none` when the document does not exist. -/
def storeGetDoc (st : Store) (i : Nat) : Option Doc :=
  lookupId st.history i

/-- `set(ref, fields)` with merge semantics on the history collection. -/
def storeSetMerge (st : Store) (i : Nat) (payload : Doc) : Store :=
  match storeGetDoc st i with
  | some _ =>
    let h := st.history.map (fun q => if q.1 == i then (i, dictMerge q.2 payload) else q)
    { st with history := h }
  | none => { st with history := st.history ++ [(i, payload)] }

/-- The connector's `set` on a history document: the merge write followed by
the `last_edit` side effect — every history path satisfies the
`_update_last_edit` path test, so the timestamp merge always fires here. -/
def storeSetWithLastEdit (now : Nat) (st : Store) (i : Nat) (payload : Doc) : Store :=
  storeSetMerge (storeSetMerge st i payload) i [("last_edit", .pTime now)]

/-- `_filtered_stream_refs(history, field, "==", v)`: ids of documents whose
field equals the value, in store order. -/
def queryEq (st : Store) (field : String) (v : PyVal) : List Nat :=
  (st.history.filter (fun p => docGet p.2 field == v)).map (fun p => p.1)

/-- `_filtered_stream_refs(history, field, "array_contains", url)`. -/
def queryArrayContains (st : Store) (field : String) (url : String) : List Nat :=
  (st.history.filter (fun p =>
    match docGet p.2 field with
    | .pList l => l.contains url
    | _ => false)).map (fun p => p.1)

/-- The resolver's result map: one optional candidate list per queried field;
`none` models the key being absent from the returned dict. -/
structure HistoryRefs where
  dealroom_id : Option (List Nat) := none
  dealroom_id_old : Option (List Nat) := none
  dealroom_uuid : Option (List Nat) := none
  dealroom_uuid_old : Option (List Nat) := none
  final_url : Option (List Nat) := none
  current_related_urls : Option (List Nat) := none
deriving DecidableEq, Repr

/-- `result[dr_id.field_name] = ...; result[dr_id.field_name_old] = ...`:
the identifier kind picks which pair of keys is filled. -/
def setIdFields (r : HistoryRefs) (dr : DealroomIdentifier)
    (primary older : List Nat) : HistoryRefs :=
  match dr with
  | .idNum _ => { r with dealroom_id := some primary, dealroom_id_old := some older }
  | .idUuid _ => { r with dealroom_uuid := some primary, dealroom_uuid_old := some older }

/-- __init__.get_history_doc_refs: requires one of `final_url`/`dealroom_id`
(else ERROR); a parsable identifier adds equality queries on its primary and
`_old` fields (`InvalidIdentifier` is swallowed, leaving no identifier); a
truthy `final_url` is normalized by `extract` (failure → ERROR) and adds the
`final_url` equality and `current_related_urls` membership queries. -/
def get_history_doc_refs (extract : PyVal → Option String) (st : Store)
    (final_url : PyVal) (dealroom_id : PyVal) : Except Unit HistoryRefs :=
  if !pyTruthy final_url && !pyTruthy dealroom_id then .error ()
  else
    let drId : Option DealroomIdentifier :=
      match determine_identifier dealroom_id with
      | .ok o => o
      | .error _ => none
    let r1 : HistoryRefs :=
      match drId with
      | some dr =>
        setIdFields {} dr (queryEq st (field_name dr) (idValue dr))
          (queryEq st (field_name_old dr) (idValue dr))
      | none => {}
    if pyTruthy final_url then
      match extract final_url with
      | none => .error ()
      | some w =>
        .ok { r1 with
              final_url := some (queryEq st "final_url" (.pStr w)),
              current_related_urls := some (queryArrayContains st "current_related_urls" w) }
    else .ok r1

/-- The key on which the upsert engine matched (`key_found`). -/
inductive WinKey where
  | wDealroomId
  | wDealroomIdOld
  | wDealroomUuid
  | wDealroomUuidOld
  | wFinalUrl
  | wRelatedUrls
deriving DecidableEq, Repr

/-- `key in history_refs and len(history_refs[key]) > 0`. -/
def optNonempty (o : Option (List Nat)) : Bool :=
  match o with
  | some l => !l.isEmpty
  | none => false

/-- The `if/elif` chain of set_history_doc_refs picking `key_found` and its
candidate list: first present non-empty key in the fixed order dealroom_id,
dealroom_id_old, dealroom_uuid, dealroom_uuid_old, final_url,
current_related_urls; `none` when every present list is empty. -/
def selectWinner (r : HistoryRefs) : Option (WinKey × List Nat) :=
  if optNonempty r.dealroom_id then some (.wDealroomId, r.dealroom_id.getD [])
  else if optNonempty r.dealroom_id_old then some (.wDealroomIdOld, r.dealroom_id_old.getD [])
  else if optNonempty r.dealroom_uuid then some (.wDealroomUuid, r.dealroom_uuid.getD [])
  else if optNonempty r.dealroom_uuid_old then some (.wDealroomUuidOld, r.dealroom_uuid_old.getD [])
  else if optNonempty r.final_url then some (.wFinalUrl, r.final_url.getD [])
  else if optNonempty r.current_related_urls then some (.wRelatedUrls, r.current_related_urls.getD [])
  else none

/-- __init__.check_for_deleted_profiles: fetch each candidate (every loop
iteration performs one `doc_ref.get()` — counted in the second component);
skip missing/empty documents; subtract 1 for each whose primary identifier
field equals DELETED and whose `_old` field differs from the supplied value. -/
def check_for_deleted_profiles (st : Store) (doc_refs : List Nat)
    (identifier : DealroomIdentifier) (count : Int) : Int × Nat :=
  match doc_refs with
  | [] => (count, 0)
  | i :: rest =>
    let c1 :=
      match storeGetDoc st i with
      | none => count
      | some d =>
        if d.isEmpty then count
        else if docGet d (field_name identifier) == .pInt DELETED
            && !(docGet d (field_name_old identifier) == idValue identifier) then
          count - 1
        else count
    let r := check_for_deleted_profiles st rest identifier c1
    (r.1, r.2 + 1)

/-- __init__.check_for_in_progress_profiles: fetch each candidate (one
`doc_ref.get()` per iteration, counted); skip missing/empty documents;
subtract 1 for each whose primary identifier field is NOT `NOT_IN_DB`. -/
def check_for_in_progress_profiles (st : Store) (doc_refs : List Nat)
    (identifier : DealroomIdentifier) (count : Int) : Int × Nat :=
  match doc_refs with
  | [] => (count, 0)
  | i :: rest =>
    let c1 :=
      match storeGetDoc st i with
      | none => count
      | some d =>
        if d.isEmpty then count
        else if !(docGet d (field_name identifier) == .pInt NOT_IN_DB) then
          count - 1
        else count
    let r := check_for_in_progress_profiles st rest identifier c1
    (r.1, r.2 + 1)

/-- The dynamically typed `dealroom_id` local of set_history_doc_refs: either
a `DealroomIdentifier` instance or a plain int (`isinstance` dispatch). -/
inductive IdOrInt where
  | ident : DealroomIdentifier → IdOrInt
  | plain : Int → IdOrInt
deriving DecidableEq, Repr

/-- The query value derived from the `dealroom_id` local. -/
def idOrIntValue : IdOrInt → PyVal
  | .ident dr => idValue dr
  | .plain n => .pInt n

/-- __init__._get_final_url_and_dealroom_id: without a
`finalurl_or_dealroomid` take `final_url` from the payload and leave the
identifier at NOT_IN_DB; with one, a parse failure makes it the final_url
verbatim (any payload final_url ignored), a parse success makes it the
identifier, with final_url still read from the payload. -/
def get_final_url_and_dealroom_id (payload : Doc)
    (finalurl_or_dealroomid : PyVal) : PyVal × IdOrInt :=
  if !pyTruthy finalurl_or_dealroomid then
    (pyOr (docGet payload "final_url") (.pStr ""), .plain NOT_IN_DB)
  else
    match determine_identifier finalurl_or_dealroomid with
    | .error _ => (pyOr finalurl_or_dealroomid (.pStr ""), .plain NOT_IN_DB)
    | .ok o =>
      let dr : IdOrInt :=
        match o with
        | some d => .ident d
        | none => .plain NOT_IN_DB
      (pyOr (docGet payload "final_url") (.pStr ""), dr)

/-- `allowed = [-1, -2, "-1", "-2"]`. -/
def ALLOWED_SENTINELS : List PyVal := [.pInt (-1), .pInt (-2), .pStr "-1", .pStr "-2"]

/-- __init__._validate_dealroom_id as a boolean (true = no exception). -/
def validate_dealroom_id (v : PyVal) : Bool :=
  is_valid_id v || ALLOWED_SENTINELS.contains v

/-- __init__._validate_dealroom_uuid as a boolean (true = no exception). -/
def validate_dealroom_uuid (v : PyVal) : Bool :=
  is_valid_uuid v || ALLOWED_SENTINELS.contains v

/-- __init__._validate_final_url as a boolean: empty string passes; anything
else must be accepted by the normalizer. -/
def validate_final_url (extract : PyVal → Option String) (v : PyVal) : Bool :=
  if v == .pStr "" then true else (extract v).isSome

/-- __init__._validate_new_history_doc_payload as a boolean, in source order:
final_url must be present and url-shaped-or-empty, one of
dealroom_id/dealroom_uuid must be present, present ones must validate, and at
least one of the three must differ from its empty/NOT_IN_DB default. -/
def validate_new_history_doc_payload (extract : PyVal → Option String)
    (p : Doc) : Bool :=
  dmem p "final_url" &&
  validate_final_url extract (docGet p "final_url") &&
  (dmem p "dealroom_id" || dmem p "dealroom_uuid") &&
  (!dmem p "dealroom_id" || validate_dealroom_id (docGet p "dealroom_id")) &&
  (!dmem p "dealroom_uuid" || validate_dealroom_uuid (docGet p "dealroom_uuid")) &&
  !(!pyTruthy (docGet p "final_url")
    && ((docGet? p "dealroom_id").getD (.pInt NOT_IN_DB) == .pInt NOT_IN_DB)
    && ((docGet? p "dealroom_uuid").getD (.pInt NOT_IN_DB) == .pInt NOT_IN_DB))

/-- __init__._validate_update_history_doc_payload as a boolean: only the
fields present in the payload are validated. -/
def validate_update_history_doc_payload (extract : PyVal → Option String)
    (p : Doc) : Bool :=
  (!dmem p "final_url" || validate_final_url extract (docGet p "final_url")) &&
  (!dmem p "dealroom_id" || validate_dealroom_id (docGet p "dealroom_id")) &&
  (!dmem p "dealroom_uuid" || validate_dealroom_uuid (docGet p "dealroom_uuid"))

/-- The `count_history_refs` value after the two dedup adjustments: the
adjustments run exactly when `key_found == "final_url"` and the identifier is
a `DealroomIdentifier` instance; otherwise the raw candidate count stands
(0 when no key matched). -/
def adjusted_count (st : Store) (sel : Option (WinKey × List Nat))
    (dealroom_id : IdOrInt) : Int :=
  let count0 : Int := match sel with | some kl => (kl.2.length : Int) | none => 0
  match sel, dealroom_id with
  | some (.wFinalUrl, l), .ident dr =>
    (check_for_in_progress_profiles st l dr
      (check_for_deleted_profiles st l dr count0).1).1
  | _, _ => count0

/-- `int(_payload["dealroom_id"])` coercion before the write; `none` when
`int` would raise (left uncaught by the source). -/
def coerce_dealroom_id (p : Doc) : Option Doc :=
  if dmem p "dealroom_id" then
    match pyInt? (docGet p "dealroom_id") with
    | some n => some (dinsert p "dealroom_id" (.pInt n))
    | none => none
  else some p

/-- The CREATE half of set_history_doc_refs: synthesize the default payload
under the caller payload, validate it, coerce dealroom_id, then issue the
`set` (with its last_edit side effect) on a freshly allocated document.
`none` models the uncaught `int()` exception. -/
def create_branch (extract : PyVal → Option String) (now : Nat) (st : Store)
    (payload : Doc) (finalurl_or_dealroomid : PyVal) (dealroom_id : IdOrInt) :
    Option (StatusCode × Store) :=
  let pl2 : Doc :=
    match dealroom_id with
    | .ident dr =>
      dictMerge [(field_name dr, idValue dr), ("final_url", .pStr "")] payload
    | .plain _ =>
      dictMerge [("dealroom_id", .pInt NOT_IN_DB), ("dealroom_uuid", .pInt NOT_IN_DB),
                 ("final_url", finalurl_or_dealroomid)] payload
  if validate_new_history_doc_payload extract pl2 then
    match coerce_dealroom_id pl2 with
    | none => none
    | some pl3 =>
      some (.CREATED,
        { storeSetWithLastEdit now st st.nextId pl3 with nextId := st.nextId + 1 })
  else some (.ERROR, st)

/-- The UPDATE half of set_history_doc_refs: validate only the supplied
fields, coerce dealroom_id, then merge-write onto the single matched
document. -/
def update_branch (extract : PyVal → Option String) (now : Nat) (st : Store)
    (payload : Doc) (target : Nat) : Option (StatusCode × Store) :=
  if validate_update_history_doc_payload extract payload then
    match coerce_dealroom_id payload with
    | none => none
    | some pl3 => some (.UPDATED, storeSetWithLastEdit now st target pl3)
  else some (.ERROR, st)

/-- __init__.set_history_doc_refs: derive (final_url, identifier), resolve,
pick the winning key, apply the dedup adjustments, then create (count ≤ 0),
update (count == 1) or fail (count > 1). Resolver and validation failures
return ERROR with the store untouched; the result `none` models the uncaught
`int()` exception on a non-numeric dealroom_id. -/
def set_history_doc_refs (extract : PyVal → Option String) (now : Nat)
    (st : Store) (payload : Doc) (finalurl_or_dealroomid : PyVal) :
    Option (StatusCode × Store) :=
  let fu := get_final_url_and_dealroom_id payload finalurl_or_dealroomid
  match get_history_doc_refs extract st fu.1 (idOrIntValue fu.2) with
  | .error _ => some (.ERROR, st)
  | .ok refs =>
    let sel := selectWinner refs
    let count := adjusted_count st sel fu.2
    if count ≤ 0 then
      create_branch extract now st payload finalurl_or_dealroomid fu.2
    else if count = 1 then
      update_branch extract now st payload
        (match sel with | some kl => kl.2.headD 0 | none => 0)
    else some (.ERROR, st)

/-- The fixed priority order of the claim, as a declarative table of
(key, getter) pairs — this follows the spec's words, to be compared with the
source's `if/elif` chain `selectWinner`. -/
def winnerOrder : List (WinKey × (HistoryRefs → Option (List Nat))) :=
  [(.wDealroomId, fun r => r.dealroom_id),
   (.wDealroomIdOld, fun r => r.dealroom_id_old),
   (.wDealroomUuid, fun r => r.dealroom_uuid),
   (.wDealroomUuidOld, fun r => r.dealroom_uuid_old),
   (.wFinalUrl, fun r => r.final_url),
   (.wRelatedUrls, fun r => r.current_related_urls)]

/-- Spec-side selection: scan `winnerOrder` once and take the first key that
is present with a non-empty candidate list. -/
def selectWinnerSpec (r : HistoryRefs) : Option (WinKey × List Nat) :=
  match winnerOrder.find? (fun kg => optNonempty (kg.2 r)) with
  | some kg => some (kg.1, (kg.2 r).getD [])
  | none => none

/-- The claim's description of a candidate blocked by the deleted-profiles
pass: the fetched document exists (non-empty), its primary identifier field
equals DELETED and its `_old` field differs from the supplied value. -/
def deleted_blocking (st : Store) (dr : DealroomIdentifier) (i : Nat) : Bool :=
  match storeGetDoc st i with
  | none => false
  | some d =>
    !d.isEmpty &&
      (docGet d (field_name dr) == .pInt DELETED
        && !(docGet d (field_name_old dr) == idValue dr))

/-- The claim's description of a candidate blocked by the in-progress pass:
the fetched document exists (non-empty) and its primary identifier field is
not NOT_IN_DB. -/
def claimed_blocking (st : Store) (dr : DealroomIdentifier) (i : Nat) : Bool :=
  match storeGetDoc st i with
  | none => false
  | some d => !d.isEmpty && !(docGet d (field_name dr) == .pInt NOT_IN_DB)

/-! ## Helper lemmas -/

theorem replaceAllAux_not_mem (p : Char) (ps repl : List Char) :
    ∀ (fuel : Nat) (l : List Char), (∀ c ∈ l, c ≠ p) →
      replaceAllAux (p :: ps) repl fuel l = l := by
  intro fuel
  induction fuel with
  | zero =>
    intro l _
    cases l <;> rfl
  | succ n ih =>
    intro l hl
    cases l with
    | nil => rfl
    | cons c cs =>
      have hc : ¬ ((p :: ps) ≠ [] ∧ listStartsWith (p :: ps) (c :: cs) = true) := by
        rintro ⟨-, hsw⟩
        have : c ≠ p := hl c (by simp)
        simp [listStartsWith, Bool.and_eq_true, beq_iff_eq] at hsw
        exact this hsw.1.symm
      simp only [replaceAllAux, if_neg hc]
      rw [ih cs (fun x hx => hl x (by simp [hx]))]

theorem replaceAllAux_single_filter (x : Char) :
    ∀ (fuel : Nat) (l : List Char), l.length ≤ fuel →
      replaceAllAux [x] [] fuel l = l.filter (fun c => c != x) := by
  intro fuel
  induction fuel with
  | zero =>
    intro l hl
    have : l = [] := List.length_eq_zero.mp (Nat.le_zero.mp hl)
    subst this
    rfl
  | succ n ih =>
    intro l hl
    cases l with
    | nil => rfl
    | cons c cs =>
      by_cases hcx : c = x
      · subst hcx
        have hcond : ([c] ≠ [] ∧ listStartsWith [c] (c :: cs) = true) := by
          simp [listStartsWith]
        simp only [replaceAllAux, if_pos hcond, List.nil_append, List.length_singleton,
          Nat.sub_self, List.drop_zero]
        rw [ih cs (by simpa using Nat.le_of_succ_le_succ hl)]
        simp [List.filter_cons]
      · have hcond : ¬ ([x] ≠ [] ∧ listStartsWith [x] (c :: cs) = true) := by
          rintro ⟨-, hsw⟩
          simp [listStartsWith, beq_iff_eq] at hsw
          exact hcx hsw.symm
        simp only [replaceAllAux, if_neg hcond]
        rw [ih cs (by simpa using Nat.le_of_succ_le_succ hl)]
        simp [List.filter_cons, bne, hcx]

theorem dropWhile_of_none (p : Char → Bool) (l : List Char)
    (h : ∀ c ∈ l, p c = false) : l.dropWhile p = l := by
  cases l with
  | nil => rfl
  | cons c cs =>
    rw [List.dropWhile_cons]
    simp [h c (by simp)]

theorem pyStrip_of_none (p : Char → Bool) (l : List Char)
    (h : ∀ c ∈ l, p c = false) : pyStrip p l = l := by
  unfold pyStrip
  rw [dropWhile_of_none p l h]
  rw [dropWhile_of_none p l.reverse (fun c hc => h c (List.mem_reverse.mp hc))]
  exact List.reverse_reverse l

theorem isHexChar_ne_u {c : Char} (h : isHexChar c = true) : c ≠ 'u' := by
  rintro rfl
  exact absurd h (by decide)

theorem isHexChar_not_brace {c : Char} (h : isHexChar c = true) :
    isBraceChar c = false := by
  rcases hb : isBraceChar c with - | -
  · rfl
  · simp only [isBraceChar, Bool.or_eq_true, beq_iff_eq] at hb
    rcases hb with rfl | rfl <;> exact absurd h (by decide)

theorem isHexChar_ne_hyphen {c : Char} (h : isHexChar c = true) : (c != '-') = true := by
  simp only [bne_iff_ne, ne_eq]
  rintro rfl
  exact absurd h (by decide)


/-! ## C1 — Batch Accumulator limit -/

set_option maxRecDepth 40000

/-- C1 (counterexample): after 500 successfully queued writes the 501st call
fails and is not queued, but it leaves the write counter at 501, not at 500
as the claim states (`_count_write` increments before the ceiling check and
the increment is never rolled back). -/
theorem C1_counterexample :
    ((queueSeq Batcher.init (List.range 500)).1 = true) ∧
    ((queueSeq Batcher.init (List.range 500)).2.total_writes = 500) ∧
    ((count_write_wrapper (queueSeq Batcher.init (List.range 500)).2 500).1 = false) ∧
    ¬ ((count_write_wrapper (queueSeq Batcher.init (List.range 500)).2 500).2.total_writes
        = 500) := by decide

/-- C1 (amended): queuing exactly 500 writes on a fresh Batcher succeeds and
the counter reads 500; the 501st call fails immediately, queues nothing
(the queued list is unchanged) and leaves the counter at 501; after a
successful commit the counter is 0 and the same instance accepts 500 more
writes. -/
theorem C1_batcher_limit :
    ((queueSeq Batcher.init (List.range 500)).1 = true) ∧
    ((queueSeq Batcher.init (List.range 500)).2.total_writes = 500) ∧
    ((count_write_wrapper (queueSeq Batcher.init (List.range 500)).2 500).1 = false) ∧
    ((count_write_wrapper (queueSeq Batcher.init (List.range 500)).2 500).2.queued
      = (queueSeq Batcher.init (List.range 500)).2.queued) ∧
    ((count_write_wrapper (queueSeq Batcher.init (List.range 500)).2 500).2.total_writes
      = 501) ∧
    (((queueSeq Batcher.init (List.range 500)).2.commit (fun _ => true)).1 = .SUCCESS) ∧
    (((queueSeq Batcher.init (List.range 500)).2.commit (fun _ => true)).2.total_writes = 0) ∧
    ((queueSeq ((queueSeq Batcher.init (List.range 500)).2.commit (fun _ => true)).2
        (List.range 500)).1 = true) := by decide

/-! ## C10 — UUID validator -/

/-- C10: `is_valid_uuid` accepts any string of 32 hexadecimal digits in the
8-4-4-4-12 hyphenated UUID layout regardless of version/variant bits (the
constructor is called with `version=4` forced, which overwrites those bits):
in particular the all-zeros UUID and a version-1 UUID string are accepted.
Every non-string value is rejected, including the sentinels -1 and -2, which
`_validate_dealroom_uuid` admits only through its separate allowed-list. -/
theorem C10_uuid_validator :
    (∀ a b c d e : List Char,
      a.length = 8 → b.length = 4 → c.length = 4 → d.length = 4 → e.length = 12 →
      (∀ x ∈ a ++ b ++ c ++ d ++ e, isHexChar x = true) →
      is_valid_uuid (.pStr (String.mk
        (a ++ '-' :: (b ++ '-' :: (c ++ '-' :: (d ++ '-' :: e)))))) = true) ∧
    (is_valid_uuid (.pStr "00000000-0000-0000-0000-000000000000") = true) ∧
    (is_valid_uuid (.pStr "c232ab00-9414-11ec-b3c8-9f68deced846") = true) ∧
    (∀ n : Int, is_valid_uuid (.pInt n) = false) ∧
    (is_valid_uuid .pNone = false) ∧
    (∀ l, is_valid_uuid (.pList l) = false) ∧
    (∀ t, is_valid_uuid (.pTime t) = false) ∧
    (is_valid_uuid (.pInt (-1)) = false ∧ is_valid_uuid (.pInt (-2)) = false) ∧
    (validate_dealroom_uuid (.pInt (-1)) = true ∧
     validate_dealroom_uuid (.pInt (-2)) = true ∧
     validate_dealroom_uuid (.pStr "-1") = true ∧
     validate_dealroom_uuid (.pStr "-2") = true) := by
  refine ⟨?_, by decide, by decide, fun n => rfl, rfl, fun l => rfl, fun t => rfl,
    ⟨rfl, rfl⟩, by decide⟩
  intro a b c d e ha hb hc hd he hhex
  have hmem : ∀ x ∈ a ++ '-' :: (b ++ '-' :: (c ++ '-' :: (d ++ '-' :: e))),
      isHexChar x = true ∨ x = '-' := by
    intro x hx
    simp only [List.mem_append, List.mem_cons] at hx
    rcases hx with h | h | h
    · exact Or.inl (hhex x (by simp [h]))
    · exact Or.inr h
    · rcases h with h | h | h
      · exact Or.inl (hhex x (by simp [h]))
      · exact Or.inr h
      · rcases h with h | h | h
        · exact Or.inl (hhex x (by simp [h]))
        · exact Or.inr h
        · rcases h with h | h | h
          · exact Or.inl (hhex x (by simp [h]))
          · exact Or.inr h
          · exact Or.inl (hhex x (by simp [h]))
  set l0 : List Char := a ++ '-' :: (b ++ '-' :: (c ++ '-' :: (d ++ '-' :: e))) with hl0
  have hnu : ∀ x ∈ l0, x ≠ 'u' := by
    intro x hx
    rcases hmem x hx with h | h
    · exact isHexChar_ne_u h
    · subst h; decide
  have hnb : ∀ x ∈ l0, isBraceChar x = false := by
    intro x hx
    rcases hmem x hx with h | h
    · exact isHexChar_not_brace h
    · subst h; decide
  show (let t := uuidNormalizeHex (String.mk l0)
        t.length == 32 && t.all isHexChar) = true
  have htl : (String.mk l0).toList = l0 := rfl
  have hurn : replaceAll "urn:".toList [] l0 = l0 := by
    unfold replaceAll
    exact replaceAllAux_not_mem 'u' _ [] l0.length l0 hnu
  have huuid : replaceAll "uuid:".toList [] l0 = l0 := by
    unfold replaceAll
    exact replaceAllAux_not_mem 'u' _ [] l0.length l0 hnu
  have hstrip : pyStrip isBraceChar l0 = l0 := pyStrip_of_none _ _ hnb
  have hhyph : replaceAll ['-'] [] l0 = l0.filter (fun c => c != '-') := by
    unfold replaceAll
    exact replaceAllAux_single_filter '-' l0.length l0 le_rfl
  have hfa : a.filter (fun c => c != '-') = a :=
    List.filter_eq_self.mpr (fun x hx => isHexChar_ne_hyphen (hhex x (by simp [hx])))
  have hfb : b.filter (fun c => c != '-') = b :=
    List.filter_eq_self.mpr (fun x hx => isHexChar_ne_hyphen (hhex x (by simp [hx])))
  have hfc : c.filter (fun x => x != '-') = c :=
    List.filter_eq_self.mpr (fun x hx => isHexChar_ne_hyphen (hhex x (by simp [hx])))
  have hfd : d.filter (fun x => x != '-') = d :=
    List.filter_eq_self.mpr (fun x hx => isHexChar_ne_hyphen (hhex x (by simp [hx])))
  have hfe : e.filter (fun x => x != '-') = e :=
    List.filter_eq_self.mpr (fun x hx => isHexChar_ne_hyphen (hhex x (by simp [hx])))
  have hfilter : l0.filter (fun c => c != '-') = a ++ b ++ c ++ d ++ e := by
    rw [hl0]
    simp only [List.filter_append, List.filter_cons]
    norm_num [hfa, hfb, hfc, hfd, hfe, List.append_assoc]
  have hnorm : uuidNormalizeHex (String.mk l0) = a ++ b ++ c ++ d ++ e := by
    unfold uuidNormalizeHex
    rw [htl, hurn, huuid, hstrip, hhyph, hfilter]
  rw [hnorm]
  have hlen : (a ++ b ++ c ++ d ++ e).length = 32 := by
    simp [List.length_append, ha, hb, hc, hd, he]
  have hall : (a ++ b ++ c ++ d ++ e).all isHexChar = true := by
    rw [List.all_eq_true]
    intro x hx
    apply hhex
    simpa [List.append_assoc] using hx
  have hbeq : ((a ++ b ++ c ++ d ++ e).length == 32) = true := by
    rw [hlen]
    rfl
  rw [Bool.and_eq_true]
  exact ⟨hbeq, hall⟩

/-- C10 witness: the universally quantified clause applied to the concrete
parts of "ef314e25-4543-4636-a5b7-c428886e3dd3". -/
theorem C10_uuid_validator_witness :
    is_valid_uuid (.pStr (String.mk
      ("ef314e25".toList ++ '-' :: ("4543".toList ++ '-' :: ("4636".toList ++ '-' ::
        ("a5b7".toList ++ '-' :: "c428886e3dd3".toList)))))) = true :=
  C10_uuid_validator.1 "ef314e25".toList "4543".toList "4636".toList "a5b7".toList
    "c428886e3dd3".toList (by decide) (by decide) (by decide) (by decide) (by decide)
    (by decide)

/-! ## C5 — retry-once store primitives -/

/-- C5: each store-access primitive invokes the wrapped underlying store call
at most twice; a first success returns immediately with one call and no
sleep; after a first failure it sleeps exactly 5 seconds and retries exactly
once, returning the retry's value on success; when both attempts fail the
body raises `FirestoreConnectorError` carrying the operation name ("get" /
"set" / "update" / "stream") and the underlying exception, and the
`exc_handler` boundary turns that into the ERROR status code. -/
theorem C5_retry_once {α : Type} (attempt : Nat → Except String α) :
    (∀ opName, (retryOncePrimitive opName attempt).2.count .callStore ≤ 2) ∧
    (∀ a, attempt 0 = .ok a →
      get_primitive attempt = .value a ∧ set_primitive attempt = .value a ∧
      update_primitive attempt = .value a ∧ stream_primitive attempt = .value a ∧
      ∀ opName, (retryOncePrimitive opName attempt).2 = [.callStore]) ∧
    (∀ e a, attempt 0 = .error e → attempt 1 = .ok a →
      get_primitive attempt = .value a ∧ set_primitive attempt = .value a ∧
      update_primitive attempt = .value a ∧ stream_primitive attempt = .value a) ∧
    (∀ e, attempt 0 = .error e →
      ∀ opName, (retryOncePrimitive opName attempt).2 =
        [.callStore, .sleepFor 5, .callStore]) ∧
    (∀ e f, attempt 0 = .error e → attempt 1 = .error f →
      (retryOncePrimitive "get" attempt).1 = .error ⟨"get", f⟩ ∧
      (retryOncePrimitive "set" attempt).1 = .error ⟨"set", f⟩ ∧
      (retryOncePrimitive "update" attempt).1 = .error ⟨"update", f⟩ ∧
      (retryOncePrimitive "stream" attempt).1 = .error ⟨"stream", f⟩ ∧
      get_primitive attempt = .code .ERROR ∧ set_primitive attempt = .code .ERROR ∧
      update_primitive attempt = .code .ERROR ∧
      stream_primitive attempt = .code .ERROR) := by
  refine ⟨?_, ?_, ?_, ?_, ?_⟩
  · intro opName
    unfold retryOncePrimitive
    cases h0 : attempt 0 with
    | ok a => simp [List.count]
    | error e =>
      cases h1 : attempt 1 with
      | ok a => simp [List.count, List.count_cons]
      | error f => simp [List.count, List.count_cons]
  · intro a h0
    unfold get_primitive set_primitive update_primitive stream_primitive
      retryOncePrimitive exc_handler
    simp [h0]
  · intro e a h0 h1
    unfold get_primitive set_primitive update_primitive stream_primitive
      retryOncePrimitive exc_handler
    simp [h0, h1]
  · intro e h0 opName
    unfold retryOncePrimitive
    cases h1 : attempt 1 with
    | ok a => simp [h0, h1, EXCEPTION_SLEEP_TIME]
    | error f => simp [h0, h1, EXCEPTION_SLEEP_TIME]
  · intro e f h0 h1
    unfold get_primitive set_primitive update_primitive stream_primitive
      retryOncePrimitive exc_handler
    simp [h0, h1]

/-- C5 witness: an attempt oracle failing both times; the last clause of the
theorem yields the named error and the ERROR code for the `get` primitive. -/
theorem C5_retry_once_witness :
    (retryOncePrimitive "get" (fun _ => (.error "boom" : Except String Nat))).1
      = .error ⟨"get", "boom"⟩ ∧
    get_primitive (fun _ => (.error "boom" : Except String Nat)) = .code .ERROR :=
  ⟨((C5_retry_once (fun _ => (.error "boom" : Except String Nat))).2.2.2.2
      "boom" "boom" rfl rfl).1,
   ((C5_retry_once (fun _ => (.error "boom" : Except String Nat))).2.2.2.2
      "boom" "boom" rfl rfl).2.2.2.2.1⟩

/-! ## C6 — last_edit side effect of set/update -/

theorem alookup_append {κ β : Type} [BEq κ] (l1 l2 : List (κ × β)) (k : κ) :
    alookup (l1 ++ l2) k =
      match alookup l1 k with
      | some d => some d
      | none => alookup l2 k := by
  induction l1 with
  | nil => rfl
  | cons p rest ih =>
    by_cases hp : p.1 == k
    · simp [alookup, hp]
    · simp [alookup, hp, ih]

theorem alookup_mapset_ne {κ β : Type} [BEq κ] [LawfulBEq κ]
    (k k2 : κ) (f : β → β) (h : k2 ≠ k) (l : List (κ × β)) :
    alookup (l.map (fun p => if p.1 == k then (k, f p.2) else p)) k2
      = alookup l k2 := by
  induction l with
  | nil => rfl
  | cons p rest ih =>
    have hkk2 : (k == k2) = false := by
      rw [beq_eq_false_iff_ne]
      exact fun hh => h hh.symm
    by_cases hp : p.1 == k
    · have hp1 : p.1 = k := by simpa [beq_iff_eq] using hp
      have hp2 : (p.1 == k2) = false := by rw [hp1]; exact hkk2
      simp [alookup, hp, hp2, hkk2, ih]
    · by_cases h2 : p.1 == k2
      · simp [alookup, hp, h2]
      · simp [alookup, hp, h2, ih]

theorem alookup_mapset_self {κ β : Type} [BEq κ] [LawfulBEq κ]
    (k : κ) (f : β → β) (l : List (κ × β)) (d : β) (hl : alookup l k = some d) :
    alookup (l.map (fun p => if p.1 == k then (k, f p.2) else p)) k
      = some (f d) := by
  induction l with
  | nil => simp [alookup] at hl
  | cons p rest ih =>
    by_cases hp : p.1 == k
    · rw [alookup] at hl
      simp only [hp, if_true] at hl
      cases hl
      simp [alookup, hp]
    · rw [alookup] at hl
      simp only [hp, Bool.false_eq_true, if_false] at hl
      simp [alookup, hp, ih hl]

theorem alookup_appendone_ne {κ β : Type} [BEq κ] [LawfulBEq κ]
    (k k2 : κ) (v : β) (h : k2 ≠ k) (l : List (κ × β)) :
    alookup (l ++ [(k, v)]) k2 = alookup l k2 := by
  rw [alookup_append]
  have hkk2 : (k == k2) = false := by
    rw [beq_eq_false_iff_ne]
    exact fun hh => h hh.symm
  cases hl : alookup l k2 with
  | some d => rfl
  | none => simp [alookup, hkk2]

theorem alookup_appendone_self {κ β : Type} [BEq κ] [LawfulBEq κ]
    (k : κ) (v : β) (l : List (κ × β)) (hl : alookup l k = none) :
    alookup (l ++ [(k, v)]) k = some v := by
  rw [alookup_append, hl]
  simp [alookup]

theorem docGet?_dinsert_ne (d : Doc) (k k2 : String) (v : PyVal) (h : k2 ≠ k) :
    docGet? (dinsert d k v) k2 = docGet? d k2 := by
  unfold dinsert
  by_cases hm : dmem d k
  · simp only [hm, if_true]
    exact alookup_mapset_ne k k2 (fun _ => v) h d
  · simp only [hm, Bool.false_eq_true, if_false]
    exact alookup_appendone_ne k k2 v h d

theorem docGet?_dinsert_self (d : Doc) (k : String) (v : PyVal) :
    docGet? (dinsert d k v) k = some v := by
  unfold dinsert
  by_cases hm : dmem d k
  · simp only [hm, if_true]
    unfold dmem docGet? at hm
    rcases Option.isSome_iff_exists.mp hm with ⟨w, hw⟩
    exact alookup_mapset_self k (fun _ => v) d w hw
  · simp only [hm, Bool.false_eq_true, if_false]
    unfold dmem docGet? at hm
    exact alookup_appendone_self k v d (Option.not_isSome_iff_eq_none.mp (by simp [hm]))

theorem docGet?_dictMerge_not_mem (k : String) :
    ∀ (p d : Doc), dmem p k = false → docGet? (dictMerge d p) k = docGet? d k := by
  intro p
  induction p with
  | nil => intro d _; rfl
  | cons kv rest ih =>
    intro d hp
    unfold dmem docGet? alookup at hp
    by_cases hk : (kv.1 == k) = true
    · simp [hk] at hp
    · simp only [hk, Bool.false_eq_true, if_false] at hp
      show docGet? (dictMerge (dinsert d kv.1 kv.2) rest) k = docGet? d k
      rw [ih (dinsert d kv.1 kv.2) hp]
      refine docGet?_dinsert_ne d kv.1 k kv.2 ?_
      have : ¬ kv.1 = k := by simpa [beq_iff_eq] using hk
      exact fun hh => this hh.symm

theorem gstoreGet_setMerge_ne (st : GStore) (path path2 : String) (p : Doc)
    (h : path2 ≠ path) :
    gstoreGet (gstoreSetMerge st path p) path2 = gstoreGet st path2 := by
  unfold gstoreSetMerge
  cases hg : gstoreGet st path with
  | some d => exact alookup_mapset_ne path path2 (fun q => dictMerge q p) h st
  | none => exact alookup_appendone_ne path path2 p h st

theorem gstoreGet_setMerge_self (st : GStore) (path : String) (p : Doc) :
    gstoreGet (gstoreSetMerge st path p) path =
      some (match gstoreGet st path with
            | some d => dictMerge d p
            | none => p) := by
  unfold gstoreSetMerge
  cases hg : gstoreGet st path with
  | some d => exact alookup_mapset_self path (fun q => dictMerge q p) st d hg
  | none => exact alookup_appendone_self path p st hg

/-- C6: for every document reference, one (successful) attempt of the `set`
primitive — and likewise of the `update` primitive — merges the current UTC
timestamp into `last_edit` if and only if the reference's path has exactly 2
segments with first segment "history" (the same split test the Batcher's
`_check_if_update_last_edit` applies): on a history path either primitive's
result is the primary write followed by the `last_edit` merge, on any other
path it is the primary write alone (in particular any "people/..." path); the
side effect happens only when the primary write succeeded (a failed attempt
changes nothing), it leaves every field other than `last_edit` and the
payload's own fields unchanged on the target document, leaves every other
document untouched, and sets `last_edit` to the current timestamp. -/
theorem C6_last_edit_side_effect (now : Nat) (st : GStore) (path : String)
    (payload : Doc) :
    (set_attempt now st path payload false = .error "set raised") ∧
    (isHistoryPath path = true →
      set_attempt now st path payload true =
        .ok (gstoreSetMerge (gstoreSetMerge st path payload) path
              [("last_edit", .pTime now)])) ∧
    (isHistoryPath path = false →
      set_attempt now st path payload true = .ok (gstoreSetMerge st path payload)) ∧
    (update_attempt now st path payload false = .error "update raised") ∧
    (isHistoryPath path = true →
      update_attempt now st path payload true =
        .ok (gstoreSetMerge (gstoreSetMerge st path payload) path
              [("last_edit", .pTime now)])) ∧
    (isHistoryPath path = false →
      update_attempt now st path payload true = .ok (gstoreSetMerge st path payload)) ∧
    (isHistoryPath path = true ↔
      ((pathSegments path).length = 2 ∧ (pathSegments path).headD "" = "history")) ∧
    (∀ rest, pathSegments path = "people" :: rest → isHistoryPath path = false) ∧
    (∀ d k, gstoreGet (gstoreSetMerge st path payload) path = some d →
      k ≠ "last_edit" →
      docGet? (dictMerge d [("last_edit", .pTime now)]) k = docGet? d k) ∧
    (∀ path2, path2 ≠ path →
      gstoreGet (gstoreSetMerge (gstoreSetMerge st path payload) path
          [("last_edit", .pTime now)]) path2 =
        gstoreGet (gstoreSetMerge st path payload) path2) ∧
    (∀ d, docGet (dictMerge d [("last_edit", .pTime now)]) "last_edit"
        = .pTime now) := by
  refine ⟨rfl, ?_, ?_, rfl, ?_, ?_, ?_, ?_, ?_, ?_, ?_⟩
  · intro hh
    unfold set_attempt update_last_edit
    rw [if_pos rfl, if_pos hh]
  · intro hh
    unfold set_attempt update_last_edit
    rw [if_pos rfl, if_neg (by simp [hh])]
  · intro hh
    unfold update_attempt update_last_edit
    rw [if_pos rfl, if_pos hh]
  · intro hh
    unfold update_attempt update_last_edit
    rw [if_pos rfl, if_neg (by simp [hh])]
  · unfold isHistoryPath
    rw [Bool.and_eq_true, beq_iff_eq, beq_iff_eq]
  · intro rest hsplit
    unfold isHistoryPath
    rw [hsplit]
    simp
  · intro d k _ hk
    show docGet? (dinsert d "last_edit" (.pTime now)) k = docGet? d k
    exact docGet?_dinsert_ne d "last_edit" k (.pTime now) hk
  · intro path2 hp2
    exact gstoreGet_setMerge_ne _ path path2 _ hp2
  · intro d
    unfold docGet
    show (docGet? (dinsert d "last_edit" (.pTime now)) "last_edit").getD .pNone = _
    rw [docGet?_dinsert_self]
    rfl

/-- C6 witness: on a history path both `set` and `update` merge the
timestamp, on a people path neither does, and the merged `last_edit` holds
the timestamp — instantiating the history, non-history and value clauses for
both primitives. -/
theorem C6_last_edit_side_effect_witness :
    (set_attempt 7 [] "history/abc" [("a", .pInt 1)] true =
      .ok (gstoreSetMerge (gstoreSetMerge [] "history/abc" [("a", .pInt 1)])
            "history/abc" [("last_edit", .pTime 7)])) ∧
    (set_attempt 7 [] "people/abc" [("a", .pInt 1)] true =
      .ok (gstoreSetMerge [] "people/abc" [("a", .pInt 1)])) ∧
    (update_attempt 7 [] "history/abc" [("a", .pInt 1)] true =
      .ok (gstoreSetMerge (gstoreSetMerge [] "history/abc" [("a", .pInt 1)])
            "history/abc" [("last_edit", .pTime 7)])) ∧
    (update_attempt 7 [] "people/abc" [("a", .pInt 1)] true =
      .ok (gstoreSetMerge [] "people/abc" [("a", .pInt 1)])) ∧
    (docGet (dictMerge [] [("last_edit", .pTime 7)]) "last_edit" = .pTime 7) :=
  ⟨(C6_last_edit_side_effect 7 [] "history/abc" [("a", .pInt 1)]).2.1 (by decide),
   (C6_last_edit_side_effect 7 [] "people/abc" [("a", .pInt 1)]).2.2.1 (by decide),
   (C6_last_edit_side_effect 7 [] "history/abc" [("a", .pInt 1)]).2.2.2.2.1 (by decide),
   (C6_last_edit_side_effect 7 [] "people/abc" [("a", .pInt 1)]).2.2.2.2.2.1 (by decide),
   (C6_last_edit_side_effect 7 [] "people/abc" [("a", .pInt 1)]).2.2.2.2.2.2.2.2.2.2 []⟩

/-! ## C3 — winning-key selection -/

/-- C3: for every resolver result map the source's `if/elif` chain selects
exactly the first key, in the fixed priority order dealroom_id,
dealroom_id_old, dealroom_uuid, dealroom_uuid_old, final_url,
current_related_urls, that is present with a non-empty list; when no key
qualifies the candidate count used by the engine is 0. -/
theorem C3_winning_key (r : HistoryRefs) :
    selectWinner r = selectWinnerSpec r ∧
    (selectWinner r = none →
      ∀ (st : Store) (d : IdOrInt), adjusted_count st (selectWinner r) d = 0) := by
  constructor
  · unfold selectWinner selectWinnerSpec winnerOrder
    cases h1 : optNonempty r.dealroom_id <;>
      cases h2 : optNonempty r.dealroom_id_old <;>
        cases h3 : optNonempty r.dealroom_uuid <;>
          cases h4 : optNonempty r.dealroom_uuid_old <;>
            cases h5 : optNonempty r.final_url <;>
              cases h6 : optNonempty r.current_related_urls <;>
                simp [List.find?, h1, h2, h3, h4, h5, h6]
  · intro hnone st d
    rw [hnone]
    unfold adjusted_count
    cases d <;> rfl

/-- C3 witness: a map whose only non-empty list sits on `final_url`; the
chain skips the four higher-priority identifier keys (two absent, two
present but empty). -/
theorem C3_winning_key_witness :
    selectWinner
      { dealroom_id := some [], dealroom_uuid := some [],
        final_url := some [4, 7], current_related_urls := some [9] } =
    selectWinnerSpec
      { dealroom_id := some [], dealroom_uuid := some [],
        final_url := some [4, 7], current_related_urls := some [9] } :=
  (C3_winning_key _).1

/-! ## C4 — ambiguity returns ERROR without writing -/

/-- C4: whenever the resolver succeeds and the adjusted candidate count is
strictly greater than 1, set_history_doc_refs returns ERROR and the store is
exactly the store it was called with (no write happened). -/
theorem C4_ambiguous_no_write (extract : PyVal → Option String) (now : Nat)
    (st : Store) (payload : Doc) (fid : PyVal) (refs : HistoryRefs)
    (hrefs : get_history_doc_refs extract st
        (get_final_url_and_dealroom_id payload fid).1
        (idOrIntValue (get_final_url_and_dealroom_id payload fid).2) = .ok refs)
    (hcount : 1 < adjusted_count st (selectWinner refs)
        (get_final_url_and_dealroom_id payload fid).2) :
    set_history_doc_refs extract now st payload fid = some (.ERROR, st) := by
  simp only [set_history_doc_refs, hrefs]
  rw [if_neg (by omega), if_neg (by omega)]

/-- C4 witness: two documents both holding dealroom_id 5; the upsert keyed on
that identifier reports ERROR and leaves the store unchanged. -/
theorem C4_ambiguous_no_write_witness :
    set_history_doc_refs (fun _ => none) 0
      ⟨[(0, [("dealroom_id", .pInt 5)]), (1, [("dealroom_id", .pInt 5)])], 2⟩
      [] (.pInt 5) =
    some (.ERROR,
      ⟨[(0, [("dealroom_id", .pInt 5)]), (1, [("dealroom_id", .pInt 5)])], 2⟩) :=
  C4_ambiguous_no_write (fun _ => none) 0
    ⟨[(0, [("dealroom_id", .pInt 5)]), (1, [("dealroom_id", .pInt 5)])], 2⟩
    [] (.pInt 5)
    { dealroom_id := some [0, 1], dealroom_id_old := some [] }
    rfl (by decide)

/-! ## C9 — empty payload and no identifier -/

/-- C9: with an empty payload and no identifier argument, set_history_doc_refs
returns ERROR (the synthesized create payload has no unique identifier:
final_url is None and both ids sit at NOT_IN_DB, so validation fails no
matter what the normalizer does) and the store is unchanged. -/
theorem C9_empty_payload_error (extract : PyVal → Option String) (now : Nat)
    (st : Store) :
    set_history_doc_refs extract now st [] .pNone = some (.ERROR, st) := by
  have hfu : get_final_url_and_dealroom_id ([] : Doc) .pNone
      = (.pStr "", .plain NOT_IN_DB) := by decide
  have hresolve : get_history_doc_refs extract st (.pStr "") (.pInt NOT_IN_DB)
      = .ok {} := rfl
  have hget : docGet
      [("dealroom_id", PyVal.pInt NOT_IN_DB), ("dealroom_uuid", PyVal.pInt NOT_IN_DB),
       ("final_url", PyVal.pNone)] "final_url" = .pNone := by decide
  have hval : validate_new_history_doc_payload extract
      [("dealroom_id", .pInt NOT_IN_DB), ("dealroom_uuid", .pInt NOT_IN_DB),
       ("final_url", .pNone)] = false := by
    unfold validate_new_history_doc_payload
    rw [hget]
    have hF : (!(!pyTruthy PyVal.pNone
        && ((docGet? [("dealroom_id", PyVal.pInt NOT_IN_DB),
              ("dealroom_uuid", PyVal.pInt NOT_IN_DB), ("final_url", PyVal.pNone)]
              "dealroom_id").getD (.pInt NOT_IN_DB) == PyVal.pInt NOT_IN_DB)
        && ((docGet? [("dealroom_id", PyVal.pInt NOT_IN_DB),
              ("dealroom_uuid", PyVal.pInt NOT_IN_DB), ("final_url", PyVal.pNone)]
              "dealroom_uuid").getD (.pInt NOT_IN_DB) == PyVal.pInt NOT_IN_DB)))
        = false := by decide
    rw [hF]
    simp only [Bool.and_false]
  have hcreate : create_branch extract now st [] .pNone (.plain NOT_IN_DB)
      = some (.ERROR, st) := by
    unfold create_branch
    simp only [dictMerge, List.foldl_nil]
    rw [hval]
    simp
  have hcount : adjusted_count st (selectWinner {}) (.plain NOT_IN_DB) = 0 := rfl
  simp only [set_history_doc_refs, hfu, idOrIntValue, hresolve]
  rw [if_pos (by rw [hcount])]
  exact hcreate

/-! ## Store write lemmas for the create/update paths -/

theorem storeGetDoc_setMerge_self (st : Store) (i : Nat) (p : Doc) :
    storeGetDoc (storeSetMerge st i p) i =
      some (match storeGetDoc st i with
            | some d => dictMerge d p
            | none => p) := by
  unfold storeSetMerge
  cases hg : storeGetDoc st i with
  | some d =>
    simp only [hg]
    unfold storeGetDoc lookupId at *
    exact alookup_mapset_self i (fun q => dictMerge q p) st.history d hg
  | none =>
    simp only [hg]
    unfold storeGetDoc lookupId at *
    exact alookup_appendone_self i p st.history hg

theorem mapset_of_alookup_none {κ β : Type} [BEq κ]
    (k : κ) (f : β → β) (l : List (κ × β)) (h : alookup l k = none) :
    l.map (fun p => if p.1 == k then (k, f p.2) else p) = l := by
  induction l with
  | nil => rfl
  | cons p rest ih =>
    rw [alookup] at h
    by_cases hp : (p.1 == k) = true
    · simp [hp] at h
    · simp only [hp, Bool.false_eq_true, if_false] at h
      simp [hp, ih h]

/-- With a fresh id, the connector `set` (merge plus last_edit) appends one
document: the payload with `last_edit` appended. -/
theorem storeSetWithLastEdit_fresh (now : Nat) (st : Store) (p : Doc)
    (hfresh : storeGetDoc st st.nextId = none)
    (hmem : dmem p "last_edit" = false) :
    storeSetWithLastEdit now st st.nextId p =
      { st with history := st.history ++ [(st.nextId, p ++ [("last_edit", .pTime now)])] } := by
  unfold storeSetWithLastEdit
  have h1 : storeSetMerge st st.nextId p
      = { st with history := st.history ++ [(st.nextId, p)] } := by
    unfold storeSetMerge
    rw [hfresh]
  rw [h1]
  have h2 : storeGetDoc { st with history := st.history ++ [(st.nextId, p)] } st.nextId
      = some p := by
    unfold storeGetDoc lookupId
    exact alookup_appendone_self st.nextId p st.history hfresh
  unfold storeSetMerge
  rw [h2]
  have h3 : (st.history ++ [(st.nextId, p)]).map
      (fun q => if q.1 == st.nextId then (st.nextId, dictMerge q.2 [("last_edit", .pTime now)]) else q)
      = st.history ++ [(st.nextId, dictMerge p [("last_edit", .pTime now)])] := by
    rw [List.map_append]
    rw [mapset_of_alookup_none st.nextId (fun q => dictMerge q [("last_edit", .pTime now)]) st.history hfresh]
    simp
  have h4 : dictMerge p [("last_edit", .pTime now)] = p ++ [("last_edit", .pTime now)] := by
    show dinsert p "last_edit" (.pTime now) = _
    unfold dinsert
    rw [hmem]
    simp
  simp only [h3, h4]

theorem filter_nil_of_queryEq_nil (st : Store) (f : String) (v : PyVal)
    (h : queryEq st f v = []) :
    st.history.filter (fun p => docGet p.2 f == v) = [] := by
  unfold queryEq at h
  exact List.map_eq_nil_iff.mp h

theorem queryEq_snoc (h1 : List (Nat × Doc)) (n n2 i : Nat) (d : Doc)
    (f : String) (v : PyVal)
    (h : queryEq ⟨h1, n⟩ f v = []) :
    queryEq ⟨h1 ++ [(i, d)], n2⟩ f v =
      if docGet d f == v then [i] else [] := by
  unfold queryEq at *
  simp only [List.filter_append, List.map_append, List.map_eq_nil_iff.mp h]
  cases hd : docGet d f == v with
  | true => simp only [List.filter, hd]; rfl
  | false => simp only [List.filter, hd]; rfl

theorem queryArrayContains_snoc (h1 : List (Nat × Doc)) (n n2 i : Nat) (d : Doc)
    (f : String) (url : String)
    (h : queryArrayContains ⟨h1, n⟩ f url = []) :
    queryArrayContains ⟨h1 ++ [(i, d)], n2⟩ f url =
      if (match docGet d f with
          | PyVal.pList l => l.contains url
          | _ => false) then [i] else [] := by
  unfold queryArrayContains at *
  simp only [List.filter_append, List.map_append, List.map_eq_nil_iff.mp h]
  cases hd : (match docGet d f with
      | PyVal.pList l => l.contains url
      | _ => false) with
  | true => simp only [List.filter, hd]; rfl
  | false => simp only [List.filter, hd]; rfl

/-- The full CREATE run of set_history_doc_refs for a payload carrying only a
`final_url` that the normalizer fixes (canonical url), no identifier argument,
and a store without a matching document: CREATED, and the new document is the
synthesized payload (ids at NOT_IN_DB, caller final_url) plus `last_edit`. -/
theorem create_call_result (extract : PyVal → Option String) (now : Nat)
    (st : Store) (u : String) (hu : u ≠ "") (hex : extract (.pStr u) = some u)
    (hq1 : queryEq st "final_url" (.pStr u) = [])
    (hq2 : queryArrayContains st "current_related_urls" u = [])
    (hfresh : storeGetDoc st st.nextId = none) :
    set_history_doc_refs extract now st [("final_url", .pStr u)] .pNone =
      some (.CREATED,
        ⟨st.history ++ [(st.nextId,
           [("dealroom_id", .pInt (-1)), ("dealroom_uuid", .pInt (-1)),
            ("final_url", .pStr u), ("last_edit", .pTime now)])],
         st.nextId + 1⟩) := by
  have hptu : pyTruthy (PyVal.pStr u) = true := by
    simp [pyTruthy, hu]
  have hfu : get_final_url_and_dealroom_id [("final_url", .pStr u)] .pNone
      = (.pStr u, .plain NOT_IN_DB) := by
    unfold get_final_url_and_dealroom_id
    rw [if_pos (by decide)]
    have : docGet [("final_url", PyVal.pStr u)] "final_url" = .pStr u := rfl
    rw [this]
    unfold pyOr
    rw [if_pos hptu]
  have hdet : determine_identifier (PyVal.pInt NOT_IN_DB) = Except.error () := rfl
  have hresolve : get_history_doc_refs extract st (.pStr u) (.pInt NOT_IN_DB)
      = .ok { final_url := some [], current_related_urls := some [] } := by
    unfold get_history_doc_refs
    rw [if_neg (by simp [pyTruthy, NOT_IN_DB])]
    rw [hdet, if_pos hptu, hex]
    simp only [hq1, hq2]
  have hne : (PyVal.pStr u == PyVal.pStr "") = false := by
    rw [beq_eq_false_iff_ne]
    intro hh
    exact hu (by injection hh)
  have hvfu : validate_final_url extract (PyVal.pStr u) = true := by
    unfold validate_final_url
    rw [if_neg (by simp [hne]), hex]
    rfl
  have hg : docGet [("dealroom_id", PyVal.pInt NOT_IN_DB),
      ("dealroom_uuid", PyVal.pInt NOT_IN_DB), ("final_url", PyVal.pStr u)]
      "final_url" = .pStr u := rfl
  have hvalid : validate_new_history_doc_payload extract
      [("dealroom_id", .pInt NOT_IN_DB), ("dealroom_uuid", .pInt NOT_IN_DB),
       ("final_url", .pStr u)] = true := by
    unfold validate_new_history_doc_payload
    rw [hg, hvfu, hptu]
    rfl
  have hpl2 : dictMerge [("dealroom_id", .pInt NOT_IN_DB),
      ("dealroom_uuid", .pInt NOT_IN_DB), ("final_url", PyVal.pNone)]
      [("final_url", .pStr u)]
      = [("dealroom_id", .pInt NOT_IN_DB), ("dealroom_uuid", .pInt NOT_IN_DB),
         ("final_url", .pStr u)] := rfl
  have hco : coerce_dealroom_id
      [("dealroom_id", .pInt NOT_IN_DB), ("dealroom_uuid", .pInt NOT_IN_DB),
       ("final_url", .pStr u)]
      = some [("dealroom_id", .pInt NOT_IN_DB), ("dealroom_uuid", .pInt NOT_IN_DB),
              ("final_url", .pStr u)] := rfl
  have hwrite := storeSetWithLastEdit_fresh now st
      [("dealroom_id", .pInt NOT_IN_DB), ("dealroom_uuid", .pInt NOT_IN_DB),
       ("final_url", .pStr u)] hfresh rfl
  have hcnt : adjusted_count st
      (selectWinner { final_url := some [], current_related_urls := some [] })
      (.plain NOT_IN_DB) = 0 := rfl
  simp only [set_history_doc_refs, hfu, idOrIntValue, hresolve]
  rw [if_pos (by rw [hcnt])]
  simp only [create_branch, hpl2, hvalid, if_true, hco, hwrite]
  norm_num [NOT_IN_DB]

/-- The full UPDATE run of set_history_doc_refs for a payload carrying only a
canonical `final_url`, no identifier argument, and a store where exactly one
document matches on final_url (none on current_related_urls): UPDATED, and
the whole effect is the merge write (with last_edit) onto that document. -/
theorem update_call_result (extract : PyVal → Option String) (now : Nat)
    (st : Store) (u : String) (i : Nat)
    (hu : u ≠ "") (hex : extract (.pStr u) = some u)
    (hq1 : queryEq st "final_url" (.pStr u) = [i])
    (hq2 : queryArrayContains st "current_related_urls" u = []) :
    set_history_doc_refs extract now st [("final_url", .pStr u)] .pNone =
      some (.UPDATED, storeSetWithLastEdit now st i [("final_url", .pStr u)]) := by
  have hptu : pyTruthy (PyVal.pStr u) = true := by
    simp [pyTruthy, hu]
  have hfu : get_final_url_and_dealroom_id [("final_url", .pStr u)] .pNone
      = (.pStr u, .plain NOT_IN_DB) := by
    unfold get_final_url_and_dealroom_id
    rw [if_pos (by decide)]
    have : docGet [("final_url", PyVal.pStr u)] "final_url" = .pStr u := rfl
    rw [this]
    unfold pyOr
    rw [if_pos hptu]
  have hdet : determine_identifier (PyVal.pInt NOT_IN_DB) = Except.error () := rfl
  have hresolve : get_history_doc_refs extract st (.pStr u) (.pInt NOT_IN_DB)
      = .ok { final_url := some [i], current_related_urls := some [] } := by
    unfold get_history_doc_refs
    rw [if_neg (by simp [pyTruthy, NOT_IN_DB])]
    rw [hdet, if_pos hptu, hex]
    simp only [hq1, hq2]
  have hne : (PyVal.pStr u == PyVal.pStr "") = false := by
    rw [beq_eq_false_iff_ne]
    intro hh
    exact hu (by injection hh)
  have hvfu : validate_final_url extract (PyVal.pStr u) = true := by
    unfold validate_final_url
    rw [if_neg (by simp [hne]), hex]
    rfl
  have hcnt : adjusted_count st
      (selectWinner { final_url := some [i], current_related_urls := some [] })
      (.plain NOT_IN_DB) = 1 := rfl
  have hvalid : validate_update_history_doc_payload extract
      [("final_url", .pStr u)] = true := by
    unfold validate_update_history_doc_payload
    have hg : docGet [("final_url", PyVal.pStr u)] "final_url" = .pStr u := rfl
    rw [hg, hvfu]
    rfl
  have hco : coerce_dealroom_id [("final_url", .pStr u)]
      = some [("final_url", .pStr u)] := rfl
  simp only [set_history_doc_refs, hfu, idOrIntValue, hresolve]
  rw [if_neg (by rw [hcnt]; norm_num), if_pos (by rw [hcnt])]
  simp only [update_branch, hvalid, if_true, hco]
  rfl

/-! ## C7 — create with only a final_url payload -/

/-- C7: calling set_history_doc_refs with payload
`{final_url: "newcompany.example"}` and no identifier argument, against a
store with no document matching that url on final_url or
current_related_urls (and a fresh next id), returns CREATED and the created
document has dealroom_id = -1, dealroom_uuid = -1 and
final_url = "newcompany.example" (the caller's field wins over the
synthesized default). -/
theorem C7_create_defaults (extract : PyVal → Option String) (now : Nat)
    (st : Store)
    (hex : extract (.pStr "newcompany.example") = some "newcompany.example")
    (hq1 : queryEq st "final_url" (.pStr "newcompany.example") = [])
    (hq2 : queryArrayContains st "current_related_urls" "newcompany.example" = [])
    (hfresh : storeGetDoc st st.nextId = none) :
    ∃ st2 d,
      set_history_doc_refs extract now st
        [("final_url", .pStr "newcompany.example")] .pNone = some (.CREATED, st2) ∧
      storeGetDoc st2 st.nextId = some d ∧
      docGet d "dealroom_id" = .pInt (-1) ∧
      docGet d "dealroom_uuid" = .pInt (-1) ∧
      docGet d "final_url" = .pStr "newcompany.example" := by
  refine ⟨_,
    [("dealroom_id", .pInt (-1)), ("dealroom_uuid", .pInt (-1)),
     ("final_url", .pStr "newcompany.example"), ("last_edit", .pTime now)],
    create_call_result extract now st "newcompany.example"
      (by decide) hex hq1 hq2 hfresh, ?_, rfl, rfl, rfl⟩
  unfold storeGetDoc lookupId
  exact alookup_appendone_self st.nextId _ st.history hfresh

/-- C7 witness: the empty store with the identity normalizer. -/
theorem C7_create_defaults_witness :
    ∃ st2 d,
      set_history_doc_refs
        (fun v => match v with | .pStr s => if s == "" then none else some s | _ => none)
        3 ⟨[], 0⟩ [("final_url", .pStr "newcompany.example")] .pNone
        = some (.CREATED, st2) ∧
      storeGetDoc st2 0 = some d ∧
      docGet d "dealroom_id" = .pInt (-1) ∧
      docGet d "dealroom_uuid" = .pInt (-1) ∧
      docGet d "final_url" = .pStr "newcompany.example" :=
  C7_create_defaults
    (fun v => match v with | .pStr s => if s == "" then none else some s | _ => none)
    3 ⟨[], 0⟩ rfl rfl rfl rfl

/-! ## C8 — create-then-update round trip on the same final_url -/

/-- C8: starting from a store with no document matching a canonical final_url
(and a fresh next id), the first set_history_doc_refs call with that
final_url returns CREATED; a second call with the same final_url and no
identifier returns UPDATED and its entire effect is a merge write onto
exactly the document the first call created (id `st.nextId`). -/
theorem C8_roundtrip (extract : PyVal → Option String) (now1 now2 : Nat)
    (st : Store) (u : String)
    (hu : u ≠ "") (hex : extract (.pStr u) = some u)
    (hq1 : queryEq st "final_url" (.pStr u) = [])
    (hq2 : queryArrayContains st "current_related_urls" u = [])
    (hfresh : storeGetDoc st st.nextId = none) :
    ∃ st2,
      set_history_doc_refs extract now1 st [("final_url", .pStr u)] .pNone
        = some (.CREATED, st2) ∧
      set_history_doc_refs extract now2 st2 [("final_url", .pStr u)] .pNone
        = some (.UPDATED,
            storeSetWithLastEdit now2 st2 st.nextId [("final_url", .pStr u)]) := by
  refine ⟨⟨st.history ++ [(st.nextId,
      [("dealroom_id", .pInt (-1)), ("dealroom_uuid", .pInt (-1)),
       ("final_url", .pStr u), ("last_edit", .pTime now1)])], st.nextId + 1⟩,
    create_call_result extract now1 st u hu hex hq1 hq2 hfresh,
    update_call_result extract now2 _ u st.nextId hu hex ?_ ?_⟩
  · rw [queryEq_snoc st.history st.nextId (st.nextId + 1) st.nextId
      [("dealroom_id", .pInt (-1)), ("dealroom_uuid", .pInt (-1)),
       ("final_url", .pStr u), ("last_edit", .pTime now1)] "final_url" (.pStr u) hq1]
    have hgd : docGet
        [("dealroom_id", PyVal.pInt (-1)), ("dealroom_uuid", PyVal.pInt (-1)),
         ("final_url", PyVal.pStr u), ("last_edit", PyVal.pTime now1)] "final_url"
        = .pStr u := rfl
    rw [hgd, if_pos (by simp)]
  · rw [queryArrayContains_snoc st.history st.nextId (st.nextId + 1) st.nextId
      [("dealroom_id", .pInt (-1)), ("dealroom_uuid", .pInt (-1)),
       ("final_url", .pStr u), ("last_edit", .pTime now1)] "current_related_urls" u hq2]
    have hgd : docGet
        [("dealroom_id", PyVal.pInt (-1)), ("dealroom_uuid", PyVal.pInt (-1)),
         ("final_url", PyVal.pStr u), ("last_edit", PyVal.pTime now1)]
        "current_related_urls" = .pNone := rfl
    rw [hgd]
    rfl

/-- C8 witness: empty store, identity normalizer, url "a.co". -/
theorem C8_roundtrip_witness :
    ∃ st2,
      set_history_doc_refs
        (fun v => match v with | .pStr s => if s == "" then none else some s | _ => none)
        1 ⟨[], 0⟩ [("final_url", .pStr "a.co")] .pNone = some (.CREATED, st2) ∧
      set_history_doc_refs
        (fun v => match v with | .pStr s => if s == "" then none else some s | _ => none)
        2 st2 [("final_url", .pStr "a.co")] .pNone
        = some (.UPDATED,
            storeSetWithLastEdit 2 st2 0 [("final_url", .pStr "a.co")]) :=
  C8_roundtrip
    (fun v => match v with | .pStr s => if s == "" then none else some s | _ => none)
    1 2 ⟨[], 0⟩ "a.co" (by decide) rfl rfl rfl rfl

/-! ## C2 — dedup adjustment -/

theorem check_deleted_spec (st : Store) (dr : DealroomIdentifier) :
    ∀ (l : List Nat) (c : Int),
      check_for_deleted_profiles st l dr c =
        (c - ((l.filter (deleted_blocking st dr)).length : Int), l.length) := by
  intro l
  induction l with
  | nil => intro c; simp [check_for_deleted_profiles]
  | cons i rest ih =>
    intro c
    simp only [check_for_deleted_profiles]
    cases hg : storeGetDoc st i with
    | none =>
      have hb : deleted_blocking st dr i = false := by simp [deleted_blocking, hg]
      simp [hg, ih, List.filter_cons, hb, Prod.mk.injEq]
    | some d =>
      by_cases he : d.isEmpty
      · have hb : deleted_blocking st dr i = false := by
          simp [deleted_blocking, hg, he]
        simp [hg, he, ih, List.filter_cons, hb, Prod.mk.injEq]
      · by_cases hcnd : (docGet d (field_name dr) == .pInt DELETED
            && !(docGet d (field_name_old dr) == idValue dr)) = true
        · have hb : deleted_blocking st dr i = true := by
            simp only [deleted_blocking, hg]
            simp [he, hcnd]
          simp [hg, he, hcnd, ih, List.filter_cons, hb, Prod.mk.injEq]
          ring
        · have hb : deleted_blocking st dr i = false := by
            simp only [deleted_blocking, hg]
            simp [he, hcnd]
          simp [hg, he, hcnd, ih, List.filter_cons, hb, Prod.mk.injEq]
          try omega

theorem check_in_progress_spec (st : Store) (dr : DealroomIdentifier) :
    ∀ (l : List Nat) (c : Int),
      check_for_in_progress_profiles st l dr c =
        (c - ((l.filter (claimed_blocking st dr)).length : Int), l.length) := by
  intro l
  induction l with
  | nil => intro c; simp [check_for_in_progress_profiles]
  | cons i rest ih =>
    intro c
    simp only [check_for_in_progress_profiles]
    cases hg : storeGetDoc st i with
    | none =>
      have hb : claimed_blocking st dr i = false := by simp [claimed_blocking, hg]
      simp [hg, ih, List.filter_cons, hb, Prod.mk.injEq]
    | some d =>
      by_cases he : d.isEmpty
      · have hb : claimed_blocking st dr i = false := by
          simp [claimed_blocking, hg, he]
        simp [hg, he, ih, List.filter_cons, hb, Prod.mk.injEq]
      · by_cases hcnd : (!(docGet d (field_name dr) == .pInt NOT_IN_DB)) = true
        · have hb : claimed_blocking st dr i = true := by
            simp only [claimed_blocking, hg]
            simp [he, hcnd]
          simp [hg, he, hcnd, ih, List.filter_cons, hb, Prod.mk.injEq]
          ring
        · have hb : claimed_blocking st dr i = false := by
            simp only [claimed_blocking, hg]
            simp [he]
            simpa using hcnd
          simp [hg, he, hcnd, ih, List.filter_cons, hb, Prod.mk.injEq]
          try omega

/-- C2 (counterexample): the dedup adjustment does not fetch each candidate
document once — a run over a single final_url candidate performs two
`doc_ref.get()` calls, one in `check_for_deleted_profiles` and one in
`check_for_in_progress_profiles`. -/
theorem C2_dedup_counterexample :
    ((check_for_deleted_profiles
        ⟨[(0, [("final_url", .pStr "a.co"), ("dealroom_id", .pInt 7)])], 1⟩
        [0] (.idNum 5) 1).2
      + (check_for_in_progress_profiles
          ⟨[(0, [("final_url", .pStr "a.co"), ("dealroom_id", .pInt 7)])], 1⟩
          [0] (.idNum 5)
          (check_for_deleted_profiles
            ⟨[(0, [("final_url", .pStr "a.co"), ("dealroom_id", .pInt 7)])], 1⟩
            [0] (.idNum 5) 1).1).2 = 2) ∧
    ¬ ((check_for_deleted_profiles
        ⟨[(0, [("final_url", .pStr "a.co"), ("dealroom_id", .pInt 7)])], 1⟩
        [0] (.idNum 5) 1).2
      + (check_for_in_progress_profiles
          ⟨[(0, [("final_url", .pStr "a.co"), ("dealroom_id", .pInt 7)])], 1⟩
          [0] (.idNum 5)
          (check_for_deleted_profiles
            ⟨[(0, [("final_url", .pStr "a.co"), ("dealroom_id", .pInt 7)])], 1⟩
            [0] (.idNum 5) 1).1).2 = 1) := by decide

/-- C2 (amended): the dedup adjustment runs exactly when the winning key is
final_url and a DealroomIdentifier was supplied (any other winner, a plain
int identifier, or no winner leaves the raw count); each of the two passes
fetches each candidate document once (so each candidate is fetched twice in
total); the deleted pass decrements once per existing document whose primary
identifier field is DELETED with `_old` different from the supplied value;
the in-progress pass decrements once per existing document whose primary
identifier field is not NOT_IN_DB; and a zero-or-negative adjusted count is
handled exactly like zero candidates: the CREATE branch runs. -/
theorem C2_dedup_adjustment :
    (∀ (st : Store) (l : List Nat) (dr : DealroomIdentifier),
      adjusted_count st (some (.wFinalUrl, l)) (.ident dr) =
        (check_for_in_progress_profiles st l dr
          (check_for_deleted_profiles st l dr (l.length : Int)).1).1) ∧
    (∀ (st : Store) (sel : Option (WinKey × List Nat)) (n : Int),
      adjusted_count st sel (.plain n) =
        (match sel with
         | some kl => (kl.2.length : Int)
         | none => 0)) ∧
    (∀ (st : Store) (k : WinKey) (l : List Nat) (dr : DealroomIdentifier),
      k ≠ .wFinalUrl →
      adjusted_count st (some (k, l)) (.ident dr) = (l.length : Int)) ∧
    (∀ (st : Store) (dr : DealroomIdentifier) (l : List Nat) (c : Int),
      check_for_deleted_profiles st l dr c =
        (c - ((l.filter (deleted_blocking st dr)).length : Int), l.length)) ∧
    (∀ (st : Store) (dr : DealroomIdentifier) (l : List Nat) (c : Int),
      check_for_in_progress_profiles st l dr c =
        (c - ((l.filter (claimed_blocking st dr)).length : Int), l.length)) ∧
    (∀ (st : Store) (dr : DealroomIdentifier) (l : List Nat) (c c2 : Int),
      (check_for_deleted_profiles st l dr c).2
        + (check_for_in_progress_profiles st l dr c2).2 = 2 * l.length) ∧
    (∀ (extract : PyVal → Option String) (now : Nat) (st : Store) (payload : Doc)
        (fid : PyVal) (refs : HistoryRefs),
      get_history_doc_refs extract st
          (get_final_url_and_dealroom_id payload fid).1
          (idOrIntValue (get_final_url_and_dealroom_id payload fid).2) = .ok refs →
      adjusted_count st (selectWinner refs)
          (get_final_url_and_dealroom_id payload fid).2 ≤ 0 →
      set_history_doc_refs extract now st payload fid =
        create_branch extract now st payload fid
          (get_final_url_and_dealroom_id payload fid).2) := by
  refine ⟨?_, ?_, ?_, check_deleted_spec, check_in_progress_spec, ?_, ?_⟩
  · intro st l dr
    rfl
  · intro st sel n
    cases sel with
    | none => rfl
    | some kl =>
      cases kl with
      | mk k l => cases k <;> rfl
  · intro st k l dr hk
    cases k <;> first | rfl | exact absurd rfl hk
  · intro st dr l c c2
    rw [check_deleted_spec, check_in_progress_spec]
    omega
  · intro extract now st payload fid refs hrefs hcount
    simp only [set_history_doc_refs, hrefs]
    rw [if_pos hcount]

/-- C2 witness: the CREATE-branch clause applied to a store where the single
final_url candidate is a deleted profile re-linked to a brand-new id (the
DS2-154 scenario): the adjusted count is 0 and the create branch runs. -/
theorem C2_dedup_adjustment_witness :
    set_history_doc_refs
      (fun v => match v with | .pStr s => if s == "" then none else some s | _ => none)
      0
      ⟨[(0, [("final_url", .pStr "foo6.bar"), ("dealroom_id", .pInt DELETED),
             ("dealroom_id_old", .pInt 42)])], 1⟩
      [("final_url", .pStr "foo6.bar"), ("dealroom_id", .pInt 777)] (.pInt 777) =
    create_branch
      (fun v => match v with | .pStr s => if s == "" then none else some s | _ => none)
      0
      ⟨[(0, [("final_url", .pStr "foo6.bar"), ("dealroom_id", .pInt DELETED),
             ("dealroom_id_old", .pInt 42)])], 1⟩
      [("final_url", .pStr "foo6.bar"), ("dealroom_id", .pInt 777)] (.pInt 777)
      (get_final_url_and_dealroom_id
        [("final_url", .pStr "foo6.bar"), ("dealroom_id", .pInt 777)] (.pInt 777)).2 :=
  C2_dedup_adjustment.2.2.2.2.2.2
    (fun v => match v with | .pStr s => if s == "" then none else some s | _ => none)
    0
    ⟨[(0, [("final_url", .pStr "foo6.bar"), ("dealroom_id", .pInt DELETED),
           ("dealroom_id_old", .pInt 42)])], 1⟩
    [("final_url", .pStr "foo6.bar"), ("dealroom_id", .pInt 777)] (.pInt 777)
    { dealroom_id := some [], dealroom_id_old := some [],
      final_url := some [0], current_related_urls := some [] }
    rfl (by decide)
